import Mathlib

/-!
Shallow embedding of the double-entry ledger service (FastAPI + SQLAlchemy).

The store (the SQL database) is modelled as three lists of rows: accounts,
transactions and ledger entries.  Monetary amounts (`Numeric(19,4)`) are
modelled as integers counting fixed-point units of 0.0001, so sums and
comparisons are exact.  Row ids (uuid4 in the source) are passed to each
operation as explicit parameters; the reachability relation below requires
fresh transaction ids, which is the uuid-uniqueness assumption.  An HTTP
error response (`HTTPException`) raised inside `with db.begin()` rolls the
unit of work back, so a failing operation is modelled as `Except.error e`
carrying no successor store: the original store stands unchanged.
-/

namespace Ledger

/-- Entry type enum from models.py: DEBIT or CREDIT. -/
inductive EntryType where
  | DEBIT
  | CREDIT
deriving DecidableEq, Repr

/-- Account row from models.py (id, user_id, account_type, currency, status). -/
structure Account where
  id : String
  user_id : String
  account_type : String
  currency : String
  status : String
deriving DecidableEq, Repr

/-- Transaction row from models.py (id, type, status; created_at is not
needed by any property and is omitted). -/
structure Transaction where
  id : String
  type : String
  status : String
deriving DecidableEq, Repr

/-- Ledger entry row from models.py. -/
structure LedgerEntry where
  id : String
  account_id : String
  transaction_id : String
  entry_type : EntryType
  amount : Int
deriving DecidableEq, Repr

/-- The shared database: the three tables as lists of rows (insertion order). -/
structure Store where
  accounts : List Account
  transactions : List Transaction
  entries : List LedgerEntry
deriving DecidableEq, Repr

/-- The empty database, the initial state. -/
def emptyStore : Store := ⟨[], [], []⟩

/-- Request bodies from schemas.py. -/
structure AccountCreate where
  user_id : String
  account_type : String
  currency : String
deriving DecidableEq, Repr

structure DepositRequest where
  account_id : String
  amount : Int
  description : String
deriving DecidableEq, Repr

structure WithdrawalRequest where
  account_id : String
  amount : Int
  description : String
deriving DecidableEq, Repr

structure TransferRequest where
  source_account_id : String
  destination_account_id : String
  amount : Int
  description : String
deriving DecidableEq, Repr

/-- The HTTP error outcomes the endpoints raise: 400 (amount must be
positive), 404 (account not found), 422 (insufficient funds). -/
inductive ApiError where
  | validationError
  | notFound
  | insufficientFunds
deriving DecidableEq, Repr

/-- Response body of GET /accounts/\x7baccount_id\x7d. -/
structure AccountResponse where
  id : String
  user_id : String
  account_type : String
  currency : String
  status : String
  balance : Int
deriving DecidableEq, Repr

/-- Report returned by GET /audit/integrity-check. -/
structure IntegrityReport where
  total_system_liquidity : Int
  unbalanced_transactions_count : Nat
  status : String
deriving DecidableEq, Repr

/-- Signed value of one entry, the SQL `CASE WHEN entry_type = CREDIT THEN
amount ELSE -amount END` used by every balance query in main.py. -/
def entrySigned (e : LedgerEntry) : Int :=
  match e.entry_type with
  | EntryType.CREDIT => e.amount
  | EntryType.DEBIT => -e.amount

/-- The balance query of main.py: `COALESCE(SUM(signed amount), 0)` over the
entries of one account (empty sum is 0, as COALESCE yields). -/
def balanceOf (s : Store) (accId : String) : Int :=
  ((s.entries.filter (fun e => e.account_id = accId)).map entrySigned).sum

/-- Account lookup `db.query(Account).filter(id == ...).first()` viewed as
an existence test. -/
def accountExists (s : Store) (accId : String) : Prop :=
  accId ∈ s.accounts.map Account.id

instance (s : Store) (accId : String) : Decidable (accountExists s accId) := by
  unfold accountExists; infer_instance

/-- POST /accounts from main.py: inserts the account row (status defaults
to ACTIVE per models.py) and answers the row with balance 0.00. -/
def create_new_account (s : Store) (accId : String) (req : AccountCreate) :
    Store × AccountResponse :=
  let a : Account :=
    { id := accId, user_id := req.user_id, account_type := req.account_type,
      currency := req.currency, status := "ACTIVE" }
  ({ s with accounts := s.accounts ++ [a] },
   { id := a.id, user_id := a.user_id, account_type := a.account_type,
     currency := a.currency, status := a.status, balance := 0 })

/-- GET /accounts/\x7baccount_id\x7d from main.py: 404 when the row is
missing, else the account fields plus the balance query's result. -/
def get_account_details (s : Store) (accId : String) :
    Except ApiError AccountResponse :=
  match s.accounts.find? (fun a => a.id = accId) with
  | none => Except.error ApiError.notFound
  | some a =>
      Except.ok
        { id := a.id, user_id := a.user_id, account_type := a.account_type,
          currency := a.currency, status := a.status,
          balance := balanceOf s accId }

/-- Distinct transaction ids appearing among the ledger entries: the
`GROUP BY transaction_id` domain of the audit query. -/
def txIdsWithEntries (s : Store) : List String :=
  (s.entries.map LedgerEntry.transaction_id).dedup

/-- Entries belonging to one transaction id (one `GROUP BY` group). -/
def entriesOfTx (s : Store) (tid : String) : List LedgerEntry :=
  s.entries.filter (fun e => e.transaction_id = tid)

/-- Number of entries carrying a given transaction id (`COUNT(*)` per group). -/
def entryCountFor (s : Store) (tid : String) : Nat :=
  (entriesOfTx s tid).length

/-- The groups flagged by `HAVING (COUNT(*) % 2) != 0`. -/
def unbalancedTxIds (s : Store) : List String :=
  (txIdsWithEntries s).filter (fun tid => entryCountFor s tid % 2 ≠ 0)

/-- GET /audit/integrity-check from main.py: net liquidity (`float(net_sum
or 0)`, i.e. 0 on an empty table), the count of odd-sized entry groups, and
the health status string. -/
def integrity_check (s : Store) : IntegrityReport :=
  { total_system_liquidity := (s.entries.map entrySigned).sum,
    unbalanced_transactions_count := (unbalancedTxIds s).length,
    status :=
      if (unbalancedTxIds s).length = 0 then "Healthy"
      else "Integrity Compromised" }

/-- POST /deposits from main.py: reject amount ≤ 0 with 400, otherwise —
with no account-existence check anywhere on this path — insert a COMPLETED
DEPOSIT transaction and one CREDIT entry, atomically. -/
def deposit_funds (s : Store) (txId entryId : String) (req : DepositRequest) :
    Except ApiError (Store × String) :=
  if req.amount ≤ 0 then Except.error ApiError.validationError
  else
    let tx : Transaction := { id := txId, type := "DEPOSIT", status := "COMPLETED" }
    let e : LedgerEntry :=
      { id := entryId, account_id := req.account_id, transaction_id := txId,
        entry_type := EntryType.CREDIT, amount := req.amount }
    Except.ok
      ({ s with transactions := s.transactions ++ [tx],
                entries := s.entries ++ [e] },
       "Deposit successful")

/-- POST /withdrawals from main.py: reject amount ≤ 0 with 400; 404 when the
account row is missing; recompute the balance under the row lock and reject
with 422 when it is below the amount; otherwise insert a COMPLETED
WITHDRAWAL transaction and one DEBIT entry, atomically. -/
def withdraw_funds (s : Store) (txId entryId : String)
    (req : WithdrawalRequest) : Except ApiError (Store × String) :=
  if req.amount ≤ 0 then Except.error ApiError.validationError
  else if ¬ accountExists s req.account_id then Except.error ApiError.notFound
  else if balanceOf s req.account_id < req.amount then
    Except.error ApiError.insufficientFunds
  else
    let tx : Transaction := { id := txId, type := "WITHDRAWAL", status := "COMPLETED" }
    let e : LedgerEntry :=
      { id := entryId, account_id := req.account_id, transaction_id := txId,
        entry_type := EntryType.DEBIT, amount := req.amount }
    Except.ok
      ({ s with transactions := s.transactions ++ [tx],
                entries := s.entries ++ [e] },
       "Withdrawal successful")

/-- POST /transfers from main.py: reject amount ≤ 0 with 400; 404 when the
source row is missing (the destination is never looked up); reject with 422
when the source balance is below the amount; otherwise insert a COMPLETED
TRANSFER transaction, a DEBIT entry on the source and a CREDIT entry on the
destination, atomically, and answer with the transaction id. -/
def execute_transfer (s : Store) (txId debitId creditId : String)
    (req : TransferRequest) : Except ApiError (Store × String) :=
  if req.amount ≤ 0 then Except.error ApiError.validationError
  else if ¬ accountExists s req.source_account_id then
    Except.error ApiError.notFound
  else if balanceOf s req.source_account_id < req.amount then
    Except.error ApiError.insufficientFunds
  else
    let tx : Transaction := { id := txId, type := "TRANSFER", status := "COMPLETED" }
    let d : LedgerEntry :=
      { id := debitId, account_id := req.source_account_id,
        transaction_id := txId, entry_type := EntryType.DEBIT,
        amount := req.amount }
    let c : LedgerEntry :=
      { id := creditId, account_id := req.destination_account_id,
        transaction_id := txId, entry_type := EntryType.CREDIT,
        amount := req.amount }
    Except.ok
      ({ s with transactions := s.transactions ++ [tx],
                entries := s.entries ++ [d, c] },
       txId)

/-- Freshness of a generated transaction id with respect to a store: the
uuid4 default of models.py never repeats an id already present. -/
def FreshTxId (s : Store) (tid : String) : Prop :=
  tid ∉ s.transactions.map Transaction.id ∧
  tid ∉ s.entries.map LedgerEntry.transaction_id

instance (s : Store) (tid : String) : Decidable (FreshTxId s tid) := by
  unfold FreshTxId; infer_instance

/-- One committed API call, relating a store to its successor.  Failed calls
roll back and leave the store as it was, so only successful calls appear. -/
inductive Step : Store → Store → Prop where
  | create (s : Store) (accId : String) (req : AccountCreate)
      (hfresh : accId ∉ s.accounts.map Account.id) :
      Step s (create_new_account s accId req).1
  | deposit (s s' : Store) (txId entryId m : String) (req : DepositRequest)
      (hfresh : FreshTxId s txId)
      (hok : deposit_funds s txId entryId req = Except.ok (s', m)) :
      Step s s'
  | withdraw (s s' : Store) (txId entryId m : String) (req : WithdrawalRequest)
      (hfresh : FreshTxId s txId)
      (hok : withdraw_funds s txId entryId req = Except.ok (s', m)) :
      Step s s'
  | transfer (s s' : Store) (txId debitId creditId m : String)
      (req : TransferRequest)
      (hfresh : FreshTxId s txId)
      (hok : execute_transfer s txId debitId creditId req = Except.ok (s', m)) :
      Step s s'

/-- Stores reachable from the empty database by committed API calls. -/
inductive Reachable : Store → Prop where
  | init : Reachable emptyStore
  | step {s s' : Store} : Reachable s → Step s s' → Reachable s'

/-- The transaction row a successful deposit inserts. -/
def depositTx (txId : String) : Transaction :=
  { id := txId, type := "DEPOSIT", status := "COMPLETED" }

/-- The entry row a successful deposit inserts. -/
def depositEntry (txId entryId : String) (req : DepositRequest) : LedgerEntry :=
  { id := entryId, account_id := req.account_id, transaction_id := txId,
    entry_type := EntryType.CREDIT, amount := req.amount }

/-- The transaction row a successful withdrawal inserts. -/
def withdrawTx (txId : String) : Transaction :=
  { id := txId, type := "WITHDRAWAL", status := "COMPLETED" }

/-- The entry row a successful withdrawal inserts. -/
def withdrawEntry (txId entryId : String) (req : WithdrawalRequest) : LedgerEntry :=
  { id := entryId, account_id := req.account_id, transaction_id := txId,
    entry_type := EntryType.DEBIT, amount := req.amount }

/-- The transaction row a successful transfer inserts. -/
def transferTx (txId : String) : Transaction :=
  { id := txId, type := "TRANSFER", status := "COMPLETED" }

/-- The debit entry a successful transfer inserts on the source account. -/
def transferDebit (txId debitId : String) (req : TransferRequest) : LedgerEntry :=
  { id := debitId, account_id := req.source_account_id, transaction_id := txId,
    entry_type := EntryType.DEBIT, amount := req.amount }

/-- The credit entry a successful transfer inserts on the destination. -/
def transferCredit (txId creditId : String) (req : TransferRequest) : LedgerEntry :=
  { id := creditId, account_id := req.destination_account_id,
    transaction_id := txId, entry_type := EntryType.CREDIT, amount := req.amount }

/-- Store produced by a successful withdrawal: the inserted WITHDRAWAL
transaction plus its single DEBIT entry. -/
def afterWithdraw (s : Store) (txId entryId : String)
    (req : WithdrawalRequest) : Store :=
  { s with
      transactions := s.transactions ++ [withdrawTx txId],
      entries := s.entries ++ [withdrawEntry txId entryId req] }

/-- Store produced by a successful transfer: the inserted TRANSFER
transaction plus its DEBIT entry on the source and CREDIT entry on the
destination. -/
def afterTransfer (s : Store) (txId debitId creditId : String)
    (req : TransferRequest) : Store :=
  { s with
      transactions := s.transactions ++ [transferTx txId],
      entries := s.entries ++
        [transferDebit txId debitId req, transferCredit txId creditId req] }

/-- Modelled from the spec's words (§3/§4.2) for the refinement claim about
balances: Balance(account) = Σ(amount where entry_type=CREDIT) − Σ(amount
where entry_type=DEBIT) over entries with that account_id, 0 when none. -/
def computeBalance_spec (s : Store) (accId : String) : Int :=
  ((s.entries.filter
      (fun e => e.account_id = accId ∧ e.entry_type = EntryType.CREDIT)).map
    LedgerEntry.amount).sum
  - ((s.entries.filter
      (fun e => e.account_id = accId ∧ e.entry_type = EntryType.DEBIT)).map
    LedgerEntry.amount).sum

/-- Every persisted transaction row carries status COMPLETED. -/
def allCompleted (s : Store) : Prop :=
  ∀ tx ∈ s.transactions, tx.status = "COMPLETED"

/-- Structural invariant of the rows each operation persists: a TRANSFER
owns exactly two entries, a DEBIT then a CREDIT of the same amount; a
DEPOSIT or WITHDRAWAL owns exactly one entry. -/
def txShapeOK (s : Store) : Prop :=
  ∀ tx ∈ s.transactions,
    (tx.type = "TRANSFER" →
      ∃ d c, entriesOfTx s tx.id = [d, c] ∧ d.entry_type = EntryType.DEBIT ∧
        c.entry_type = EntryType.CREDIT ∧ d.amount = c.amount) ∧
    ((tx.type = "DEPOSIT" ∨ tx.type = "WITHDRAWAL") →
      (entriesOfTx s tx.id).length = 1)

/-- Tally of one batch of withdrawal requests: final store, number of 200
responses, number of 422 (insufficient funds) responses, and number of any
other error responses. -/
structure RunResult where
  store : Store
  ok_count : Nat
  insufficient_count : Nat
  other_count : Nat
deriving DecidableEq, Repr

/-- N same-amount withdrawal requests against one account, executed in the
serial order the row lock (`with_for_update` on the account row) imposes on
operations that target the same account. -/
def runWithdrawals (req : WithdrawalRequest) : Store → Nat → RunResult
  | s, 0 => { store := s, ok_count := 0, insufficient_count := 0, other_count := 0 }
  | s, n + 1 =>
    match withdraw_funds s (String.append "wtx" (Nat.repr n))
        (String.append "wen" (Nat.repr n)) req with
    | Except.ok (s1, _) =>
        let r := runWithdrawals req s1 n
        { r with ok_count := r.ok_count + 1 }
    | Except.error ApiError.insufficientFunds =>
        let r := runWithdrawals req s n
        { r with insufficient_count := r.insufficient_count + 1 }
    | Except.error _ =>
        let r := runWithdrawals req s n
        { r with other_count := r.other_count + 1 }

/-- Concrete account used by the witnesses: created via POST /accounts. -/
def exAccount : Account :=
  { id := "A", user_id := "u1", account_type := "checking",
    currency := "USD", status := "ACTIVE" }

def exAccountCreate : AccountCreate :=
  { user_id := "u1", account_type := "checking", currency := "USD" }

def exDepositReq : DepositRequest :=
  { account_id := "A", amount := 10, description := "fund" }

def exWithdrawReq : WithdrawalRequest :=
  { account_id := "A", amount := 5, description := "spend" }

/-- Transfer request whose source and destination are the same account. -/
def exTransferReq : TransferRequest :=
  { source_account_id := "A", destination_account_id := "A", amount := 5,
    description := "self" }

/-- Store after creating account A. -/
def exStore1 : Store := { accounts := [exAccount], transactions := [], entries := [] }

/-- Store after additionally depositing 10 into A (transaction t1). -/
def exStore2 : Store :=
  { accounts := [exAccount], transactions := [depositTx "t1"],
    entries := [depositEntry "t1" "e1" exDepositReq] }

/-- Store after additionally transferring 5 from A to A (transaction t2). -/
def exStore3 : Store :=
  { accounts := [exAccount],
    transactions := [depositTx "t1", transferTx "t2"],
    entries := [depositEntry "t1" "e1" exDepositReq,
                transferDebit "t2" "e2" exTransferReq,
                transferCredit "t2" "e3" exTransferReq] }

/-- Deposit request aimed at an account id that exists in no store used by
the witnesses. -/
def exGhostDeposit : DepositRequest :=
  { account_id := "ghost", amount := 5, description := "noone" }

theorem deposit_funds_ok (s : Store) (txId entryId : String)
    (req : DepositRequest) (h : 0 < req.amount) :
    deposit_funds s txId entryId req =
      Except.ok
        ({ s with transactions := s.transactions ++ [depositTx txId],
                  entries := s.entries ++ [depositEntry txId entryId req] },
         "Deposit successful") := by
  unfold deposit_funds depositTx depositEntry
  rw [if_neg (by omega)]

theorem deposit_funds_ok_inv {s s' : Store} {txId entryId m : String}
    {req : DepositRequest}
    (h : deposit_funds s txId entryId req = Except.ok (s', m)) :
    0 < req.amount ∧
    s' = { s with transactions := s.transactions ++ [depositTx txId],
                  entries := s.entries ++ [depositEntry txId entryId req] } := by
  unfold deposit_funds at h
  split_ifs at h with h1
  refine ⟨by omega, ?_⟩
  injection h with h
  injection h with h2 h3
  exact h2.symm

theorem withdraw_funds_ok (s : Store) (txId entryId : String)
    (req : WithdrawalRequest) (h : 0 < req.amount)
    (hacc : accountExists s req.account_id)
    (hbal : req.amount ≤ balanceOf s req.account_id) :
    withdraw_funds s txId entryId req =
      Except.ok
        ({ s with transactions := s.transactions ++ [withdrawTx txId],
                  entries := s.entries ++ [withdrawEntry txId entryId req] },
         "Withdrawal successful") := by
  unfold withdraw_funds withdrawTx withdrawEntry
  rw [if_neg (by omega), if_neg (by simp [hacc]), if_neg (by omega)]

theorem withdraw_funds_insufficient (s : Store) (txId entryId : String)
    (req : WithdrawalRequest) (h : 0 < req.amount)
    (hacc : accountExists s req.account_id)
    (hbal : balanceOf s req.account_id < req.amount) :
    withdraw_funds s txId entryId req = Except.error ApiError.insufficientFunds := by
  unfold withdraw_funds
  rw [if_neg (by omega), if_neg (by simp [hacc]), if_pos hbal]

theorem withdraw_funds_ok_inv {s s' : Store} {txId entryId m : String}
    {req : WithdrawalRequest}
    (h : withdraw_funds s txId entryId req = Except.ok (s', m)) :
    0 < req.amount ∧ accountExists s req.account_id ∧
    req.amount ≤ balanceOf s req.account_id ∧
    s' = { s with transactions := s.transactions ++ [withdrawTx txId],
                  entries := s.entries ++ [withdrawEntry txId entryId req] } := by
  unfold withdraw_funds at h
  split_ifs at h with h1 h2 h3
  refine ⟨by omega, by tauto, by omega, ?_⟩
  injection h with h
  injection h with h4 h5
  exact h4.symm

theorem execute_transfer_ok (s : Store) (txId debitId creditId : String)
    (req : TransferRequest) (h : 0 < req.amount)
    (hacc : accountExists s req.source_account_id)
    (hbal : req.amount ≤ balanceOf s req.source_account_id) :
    execute_transfer s txId debitId creditId req =
      Except.ok
        ({ s with transactions := s.transactions ++ [transferTx txId],
                  entries := s.entries ++
                    [transferDebit txId debitId req,
                     transferCredit txId creditId req] },
         txId) := by
  unfold execute_transfer transferTx transferDebit transferCredit
  rw [if_neg (by omega), if_neg (by simp [hacc]), if_neg (by omega)]

theorem execute_transfer_insufficient (s : Store) (txId debitId creditId : String)
    (req : TransferRequest) (h : 0 < req.amount)
    (hacc : accountExists s req.source_account_id)
    (hbal : balanceOf s req.source_account_id < req.amount) :
    execute_transfer s txId debitId creditId req =
      Except.error ApiError.insufficientFunds := by
  unfold execute_transfer
  rw [if_neg (by omega), if_neg (by simp [hacc]), if_pos hbal]

theorem execute_transfer_ok_inv {s s' : Store} {txId debitId creditId m : String}
    {req : TransferRequest}
    (h : execute_transfer s txId debitId creditId req = Except.ok (s', m)) :
    0 < req.amount ∧ accountExists s req.source_account_id ∧
    req.amount ≤ balanceOf s req.source_account_id ∧
    s' = { s with transactions := s.transactions ++ [transferTx txId],
                  entries := s.entries ++
                    [transferDebit txId debitId req,
                     transferCredit txId creditId req] } := by
  unfold execute_transfer at h
  split_ifs at h with h1 h2 h3
  refine ⟨by omega, by tauto, by omega, ?_⟩
  injection h with h
  injection h with h4 h5
  exact h4.symm

theorem balanceOf_entries_append (s : Store) (accId : String)
    (new : List LedgerEntry) :
    balanceOf { s with entries := s.entries ++ new } accId
      = balanceOf s accId
        + ((new.filter (fun e => e.account_id = accId)).map entrySigned).sum := by
  unfold balanceOf
  simp [List.filter_append]

theorem balanceOf_append_one (s : Store) (accId : String) (e : LedgerEntry) :
    balanceOf { s with entries := s.entries ++ [e] } accId
      = balanceOf s accId
        + (if e.account_id = accId then entrySigned e else 0) := by
  rw [balanceOf_entries_append]
  by_cases h : e.account_id = accId <;> simp [h]

theorem balanceOf_append_two (s : Store) (accId : String) (d c : LedgerEntry) :
    balanceOf { s with entries := s.entries ++ [d, c] } accId
      = balanceOf s accId
        + (if d.account_id = accId then entrySigned d else 0)
        + (if c.account_id = accId then entrySigned c else 0) := by
  rw [balanceOf_entries_append]
  by_cases hd : d.account_id = accId <;> by_cases hc : c.account_id = accId <;>
    simp [hd, hc, add_assoc]

theorem balanceOf_eq_sum (s : Store) (accId : String) :
    balanceOf s accId
      = ((s.entries.filter (fun e => e.account_id = accId)).map entrySigned).sum :=
  rfl

theorem signed_sum_append (l1 l2 : List LedgerEntry) (accId : String) :
    (((l1 ++ l2).filter (fun x => x.account_id = accId)).map entrySigned).sum
      = ((l1.filter (fun x => x.account_id = accId)).map entrySigned).sum
        + ((l2.filter (fun x => x.account_id = accId)).map entrySigned).sum := by
  simp [List.filter_append]

theorem entriesOfTx_append (s : Store) (tid : String) (trans : List Transaction)
    (new : List LedgerEntry) :
    entriesOfTx { s with transactions := trans, entries := s.entries ++ new } tid
      = entriesOfTx s tid ++ new.filter (fun e => e.transaction_id = tid) := by
  unfold entriesOfTx
  simp [List.filter_append]

theorem filter_tid_eq_nil {l : List LedgerEntry} {tid : String}
    (h : tid ∉ l.map LedgerEntry.transaction_id) :
    l.filter (fun e => e.transaction_id = tid) = [] := by
  rw [List.filter_eq_nil_iff]
  intro e he
  simp only [decide_eq_true_eq]
  intro heq
  exact h (List.mem_map.mpr ⟨e, he, heq⟩)

theorem entriesOfTx_eq_nil_of_fresh {s : Store} {tid : String}
    (h : tid ∉ s.entries.map LedgerEntry.transaction_id) :
    entriesOfTx s tid = [] :=
  filter_tid_eq_nil h

theorem step_ex1 : Step emptyStore exStore1 :=
  Step.create emptyStore "A" exAccountCreate (by decide)

theorem step_ex2 : Step exStore1 exStore2 :=
  Step.deposit exStore1 exStore2 "t1" "e1" "Deposit successful" exDepositReq
    (by decide) rfl

theorem step_ex3 : Step exStore2 exStore3 :=
  Step.transfer exStore2 exStore3 "t2" "e2" "e3" "t2" exTransferReq
    (by decide) rfl

theorem exStore1_reachable : Reachable exStore1 :=
  Reachable.step Reachable.init step_ex1

theorem exStore2_reachable : Reachable exStore2 :=
  Reachable.step exStore1_reachable step_ex2

theorem exStore3_reachable : Reachable exStore3 :=
  Reachable.step exStore2_reachable step_ex3

theorem signed_sum_split (l : List LedgerEntry) (accId : String) :
    ((l.filter (fun e => e.account_id = accId)).map entrySigned).sum
      = ((l.filter (fun e => e.account_id = accId ∧
            e.entry_type = EntryType.CREDIT)).map LedgerEntry.amount).sum
        - ((l.filter (fun e => e.account_id = accId ∧
            e.entry_type = EntryType.DEBIT)).map LedgerEntry.amount).sum := by
  induction l with
  | nil => simp
  | cons e t ih =>
    by_cases ha : e.account_id = accId
    · cases he : e.entry_type
      · simp only [List.filter_cons, ha, he]
        simp [entrySigned, he, ih]
        ring
      · simp only [List.filter_cons, ha, he]
        simp [entrySigned, he, ih]
        ring
    · simp [List.filter_cons, ha, ih]

theorem balanceOf_eq_spec (s : Store) (accId : String) :
    balanceOf s accId = computeBalance_spec s accId :=
  signed_sum_split s.entries accId


theorem step_transactions_extend {s s' : Store} (h : Step s s') :
    ∃ ts, s'.transactions = s.transactions ++ ts := by
  cases h with
  | create accId req hfresh =>
    exact ⟨[], by simp [create_new_account]⟩
  | deposit s2 txId entryId m req hfresh hok =>
    obtain ⟨-, rfl⟩ := deposit_funds_ok_inv hok
    exact ⟨[depositTx txId], rfl⟩
  | withdraw s2 txId entryId m req hfresh hok =>
    obtain ⟨-, -, -, rfl⟩ := withdraw_funds_ok_inv hok
    exact ⟨[withdrawTx txId], rfl⟩
  | transfer s2 txId debitId creditId m req hfresh hok =>
    obtain ⟨-, -, -, rfl⟩ := execute_transfer_ok_inv hok
    exact ⟨[transferTx txId], rfl⟩

theorem allCompleted_of_reachable {s : Store} (h : Reachable s) :
    allCompleted s := by
  induction h with
  | init => intro tx htx; simp [emptyStore] at htx
  | @step s0 s1 h1 h2 ih =>
    cases h2 with
    | create accId req hfresh =>
      intro tx htx
      exact ih tx htx
    | deposit s2 txId entryId m req hfresh hok =>
      obtain ⟨-, rfl⟩ := deposit_funds_ok_inv hok
      intro tx htx
      rcases List.mem_append.mp htx with hold | hnew
      · exact ih tx hold
      · simp only [List.mem_singleton] at hnew
        rw [hnew]
        rfl
    | withdraw s2 txId entryId m req hfresh hok =>
      obtain ⟨-, -, -, rfl⟩ := withdraw_funds_ok_inv hok
      intro tx htx
      rcases List.mem_append.mp htx with hold | hnew
      · exact ih tx hold
      · simp only [List.mem_singleton] at hnew
        rw [hnew]
        rfl
    | transfer s2 txId debitId creditId m req hfresh hok =>
      obtain ⟨-, -, -, rfl⟩ := execute_transfer_ok_inv hok
      intro tx htx
      rcases List.mem_append.mp htx with hold | hnew
      · exact ih tx hold
      · simp only [List.mem_singleton] at hnew
        rw [hnew]
        rfl

theorem txShapeOK_of_reachable {s : Store} (h : Reachable s) : txShapeOK s := by
  induction h with
  | init => intro tx htx; simp [emptyStore] at htx
  | @step s0 s1 h1 h2 ih =>
    cases h2 with
    | create accId req hfresh =>
      intro tx htx
      exact ih tx htx
    | deposit s2 txId entryId m req hfresh hok =>
      obtain ⟨-, rfl⟩ := deposit_funds_ok_inv hok
      intro tx htx
      rcases List.mem_append.mp htx with hold | hnew
      · have hne : txId ≠ tx.id := by
          intro he
          apply hfresh.1
          rw [he]
          exact List.mem_map.mpr ⟨tx, hold, rfl⟩
        have hsame :
            entriesOfTx
              { s0 with transactions := s0.transactions ++ [depositTx txId],
                        entries := s0.entries ++ [depositEntry txId entryId req] }
              tx.id = entriesOfTx s0 tx.id := by
          rw [entriesOfTx_append]
          have hnil : [depositEntry txId entryId req].filter
              (fun e => e.transaction_id = tx.id) = [] := by
            simp [depositEntry, hne]
          rw [hnil, List.append_nil]
        rw [hsame]
        exact ih tx hold
      · simp only [List.mem_singleton] at hnew
        subst hnew
        constructor
        · intro habs
          simp [depositTx] at habs
        · intro _
          have hid : (depositTx txId).id = txId := rfl
          rw [entriesOfTx_append, hid, entriesOfTx_eq_nil_of_fresh hfresh.2]
          simp [depositEntry]
    | withdraw s2 txId entryId m req hfresh hok =>
      obtain ⟨-, -, -, rfl⟩ := withdraw_funds_ok_inv hok
      intro tx htx
      rcases List.mem_append.mp htx with hold | hnew
      · have hne : txId ≠ tx.id := by
          intro he
          apply hfresh.1
          rw [he]
          exact List.mem_map.mpr ⟨tx, hold, rfl⟩
        have hsame :
            entriesOfTx
              { s0 with transactions := s0.transactions ++ [withdrawTx txId],
                        entries := s0.entries ++ [withdrawEntry txId entryId req] }
              tx.id = entriesOfTx s0 tx.id := by
          rw [entriesOfTx_append]
          have hnil : [withdrawEntry txId entryId req].filter
              (fun e => e.transaction_id = tx.id) = [] := by
            simp [withdrawEntry, hne]
          rw [hnil, List.append_nil]
        rw [hsame]
        exact ih tx hold
      · simp only [List.mem_singleton] at hnew
        subst hnew
        constructor
        · intro habs
          simp [withdrawTx] at habs
        · intro _
          have hid : (withdrawTx txId).id = txId := rfl
          rw [entriesOfTx_append, hid, entriesOfTx_eq_nil_of_fresh hfresh.2]
          simp [withdrawEntry]
    | transfer s2 txId debitId creditId m req hfresh hok =>
      obtain ⟨-, -, -, rfl⟩ := execute_transfer_ok_inv hok
      intro tx htx
      rcases List.mem_append.mp htx with hold | hnew
      · have hne : txId ≠ tx.id := by
          intro he
          apply hfresh.1
          rw [he]
          exact List.mem_map.mpr ⟨tx, hold, rfl⟩
        have hsame :
            entriesOfTx
              { s0 with transactions := s0.transactions ++ [transferTx txId],
                        entries := s0.entries ++
                          [transferDebit txId debitId req,
                           transferCredit txId creditId req] }
              tx.id = entriesOfTx s0 tx.id := by
          rw [entriesOfTx_append]
          have hnil : [transferDebit txId debitId req,
              transferCredit txId creditId req].filter
              (fun e => e.transaction_id = tx.id) = [] := by
            simp [transferDebit, transferCredit, hne]
          rw [hnil, List.append_nil]
        rw [hsame]
        exact ih tx hold
      · simp only [List.mem_singleton] at hnew
        subst hnew
        constructor
        · intro _
          refine ⟨transferDebit txId debitId req, transferCredit txId creditId req,
            ?_, rfl, rfl, rfl⟩
          have hid : (transferTx txId).id = txId := rfl
          rw [entriesOfTx_append, hid, entriesOfTx_eq_nil_of_fresh hfresh.2]
          simp [transferDebit, transferCredit]
        · intro habs
          rcases habs with habs | habs
          · simp [transferTx] at habs
          · simp [transferTx] at habs


theorem runWithdrawals_spec (req : WithdrawalRequest) (a : Nat) (ha : 0 < a)
    (hA : req.amount = (a : Int)) :
    ∀ (N : Nat) (s : Store) (B : Nat),
      accountExists s req.account_id →
      balanceOf s req.account_id = (B : Int) →
      (runWithdrawals req s N).ok_count = min N (B / a) ∧
      (runWithdrawals req s N).insufficient_count = N - min N (B / a) ∧
      (runWithdrawals req s N).other_count = 0 ∧
      balanceOf (runWithdrawals req s N).store req.account_id
        = ((B - min N (B / a) * a : Nat) : Int) := by
  intro N
  induction N with
  | zero =>
    intro s B hacc hbal
    simp [runWithdrawals, hbal]
  | succ n ihn =>
    intro s B hacc hbal
    have hpos : 0 < req.amount := by rw [hA]; exact_mod_cast ha
    by_cases hlt : B < a
    · have hbal_lt : balanceOf s req.account_id < req.amount := by
        rw [hbal, hA]; exact_mod_cast hlt
      have hw := withdraw_funds_insufficient s (String.append "wtx" (Nat.repr n))
        (String.append "wen" (Nat.repr n)) req hpos hacc hbal_lt
      have hdiv : B / a = 0 := Nat.div_eq_of_lt hlt
      obtain ⟨h1, h2, h3, h4⟩ := ihn s B hacc hbal
      simp only [runWithdrawals, hw]
      refine ⟨?_, ?_, ?_, ?_⟩ <;> simp [h1, h2, h3, h4, hdiv]
    · push_neg at hlt
      have hble : req.amount ≤ balanceOf s req.account_id := by
        rw [hbal, hA]; exact_mod_cast hlt
      have hw : withdraw_funds s (String.append "wtx" (Nat.repr n))
          (String.append "wen" (Nat.repr n)) req =
          Except.ok (afterWithdraw s (String.append "wtx" (Nat.repr n))
            (String.append "wen" (Nat.repr n)) req, "Withdrawal successful") :=
        withdraw_funds_ok s (String.append "wtx" (Nat.repr n))
          (String.append "wen" (Nat.repr n)) req hpos hacc hble
      have hacc1 : accountExists (afterWithdraw s (String.append "wtx" (Nat.repr n))
          (String.append "wen" (Nat.repr n)) req) req.account_id := hacc
      have hbal1 : balanceOf (afterWithdraw s (String.append "wtx" (Nat.repr n))
          (String.append "wen" (Nat.repr n)) req) req.account_id
          = ((B - a : Nat) : Int) := by
        have hsplit : balanceOf (afterWithdraw s (String.append "wtx" (Nat.repr n))
            (String.append "wen" (Nat.repr n)) req) req.account_id
            = balanceOf s req.account_id
              + entrySigned (withdrawEntry (String.append "wtx" (Nat.repr n))
                  (String.append "wen" (Nat.repr n)) req) := by
          rw [balanceOf_eq_sum, balanceOf_eq_sum]
          simp only [afterWithdraw]
          rw [signed_sum_append]
          simp [withdrawEntry]
        rw [hsplit, hbal]
        simp only [entrySigned, withdrawEntry, hA]
        omega
      obtain ⟨h1, h2, h3, h4⟩ := ihn (afterWithdraw s (String.append "wtx" (Nat.repr n))
        (String.append "wen" (Nat.repr n)) req) (B - a) hacc1 hbal1
      have hdiv : B / a = (B - a) / a + 1 := Nat.div_eq_sub_div ha hlt
      have hmin : min (n + 1) (B / a) = min n ((B - a) / a) + 1 := by
        rw [hdiv]; omega
      simp only [runWithdrawals, hw]
      refine ⟨?_, ?_, ?_, ?_⟩
      · simp only [h1, hmin]
      · simp only [h2, hmin]
        omega
      · simp only [h3]
      · simp only [h4, hmin]
        congr 1
        rw [Nat.sub_sub, Nat.succ_mul, Nat.add_comm]

/-- C1: every withdrawal or transfer request with positive amount on an
existing (source) account whose current balance is strictly below the
requested amount fails with InsufficientFunds (HTTP 422).  In this
embedding an error result carries no successor store: the enclosing unit
of work rolled back, so no Transaction row and no LedgerEntry row is
persisted and the store is unchanged. -/
theorem claim_C1 :
    (∀ (s : Store) (txId entryId : String) (req : WithdrawalRequest),
      0 < req.amount → accountExists s req.account_id →
      balanceOf s req.account_id < req.amount →
      withdraw_funds s txId entryId req
        = Except.error ApiError.insufficientFunds) ∧
    (∀ (s : Store) (txId debitId creditId : String) (req : TransferRequest),
      0 < req.amount → accountExists s req.source_account_id →
      balanceOf s req.source_account_id < req.amount →
      execute_transfer s txId debitId creditId req
        = Except.error ApiError.insufficientFunds) :=
  ⟨fun s txId entryId req h hacc hbal =>
      withdraw_funds_insufficient s txId entryId req h hacc hbal,
   fun s txId debitId creditId req h hacc hbal =>
      execute_transfer_insufficient s txId debitId creditId req h hacc hbal⟩

/-- Witness for C1 at the store holding account A with balance 0. -/
theorem claim_C1_witness :
    withdraw_funds exStore1 "t9" "e9" exWithdrawReq
      = Except.error ApiError.insufficientFunds ∧
    execute_transfer exStore1 "t9" "e9a" "e9b" exTransferReq
      = Except.error ApiError.insufficientFunds :=
  ⟨claim_C1.1 exStore1 "t9" "e9" exWithdrawReq (by decide) (by decide) (by decide),
   claim_C1.2 exStore1 "t9" "e9a" "e9b" exTransferReq (by decide) (by decide)
     (by decide)⟩

/-- C2: whenever GetAccount answers, its balance field equals the spec's
signed sum (Σ CREDIT amounts − Σ DEBIT amounts over the account's entries),
and equals 0 when the account has no entries.  Proved for every store, so
in particular for every reachable one. -/
theorem claim_C2 (s : Store) (accId : String) (resp : AccountResponse)
    (h : get_account_details s accId = Except.ok resp) :
    resp.balance = computeBalance_spec s accId ∧
    (s.entries.filter (fun e => e.account_id = accId) = [] →
      resp.balance = 0) := by
  unfold get_account_details at h
  cases hfind : s.accounts.find? (fun a => a.id = accId) with
  | none => rw [hfind] at h; cases h
  | some acct =>
    rw [hfind] at h
    injection h with h
    subst h
    refine ⟨balanceOf_eq_spec s accId, fun hnil => ?_⟩
    show balanceOf s accId = 0
    rw [balanceOf_eq_sum, hnil]
    rfl

/-- Witness for C2 at account A of the funded store (balance 10). -/
theorem claim_C2_witness :
    (⟨"A", "u1", "checking", "USD", "ACTIVE", 10⟩ : AccountResponse).balance
      = computeBalance_spec exStore2 "A" ∧
    (exStore2.entries.filter (fun e => e.account_id = "A") = [] →
      (⟨"A", "u1", "checking", "USD", "ACTIVE", 10⟩ : AccountResponse).balance
        = 0) :=
  claim_C2 exStore2 "A" ⟨"A", "u1", "checking", "USD", "ACTIVE", 10⟩ rfl

/-- C5: every Deposit, Withdraw or Transfer call with amount ≤ 0 is
rejected with ValidationError (HTTP 400) by the guard that runs before the
unit of work opens, so nothing is ever written. -/
theorem claim_C5 :
    (∀ (s : Store) (txId entryId : String) (req : DepositRequest),
      req.amount ≤ 0 →
      deposit_funds s txId entryId req
        = Except.error ApiError.validationError) ∧
    (∀ (s : Store) (txId entryId : String) (req : WithdrawalRequest),
      req.amount ≤ 0 →
      withdraw_funds s txId entryId req
        = Except.error ApiError.validationError) ∧
    (∀ (s : Store) (txId debitId creditId : String) (req : TransferRequest),
      req.amount ≤ 0 →
      execute_transfer s txId debitId creditId req
        = Except.error ApiError.validationError) := by
  refine ⟨?_, ?_, ?_⟩
  · intro s txId entryId req h
    unfold deposit_funds
    rw [if_pos h]
  · intro s txId entryId req h
    unfold withdraw_funds
    rw [if_pos h]
  · intro s txId debitId creditId req h
    unfold execute_transfer
    rw [if_pos h]

/-- Witness for C5 at amount 0 on account A. -/
theorem claim_C5_witness :
    deposit_funds exStore1 "t1" "e1" ⟨"A", 0, "zero"⟩
      = Except.error ApiError.validationError ∧
    withdraw_funds exStore1 "t1" "e1" ⟨"A", 0, "zero"⟩
      = Except.error ApiError.validationError ∧
    execute_transfer exStore1 "t1" "e1" "e2" ⟨"A", "A", 0, "zero"⟩
      = Except.error ApiError.validationError :=
  ⟨claim_C5.1 exStore1 "t1" "e1" ⟨"A", 0, "zero"⟩ (by decide),
   claim_C5.2.1 exStore1 "t1" "e1" ⟨"A", 0, "zero"⟩ (by decide),
   claim_C5.2.2 exStore1 "t1" "e1" "e2" ⟨"A", "A", 0, "zero"⟩ (by decide)⟩

/-- C7: the integrity check on a store with no ledger entries reports net
liquidity 0, zero unbalanced transactions, and status Healthy. -/
theorem claim_C7 (s : Store) (h : s.entries = []) :
    integrity_check s =
      { total_system_liquidity := 0, unbalanced_transactions_count := 0,
        status := "Healthy" } := by
  unfold integrity_check unbalancedTxIds txIdsWithEntries
  rw [h]
  simp

/-- Witness for C7 at the empty store. -/
theorem claim_C7_witness :
    integrity_check emptyStore =
      { total_system_liquidity := 0, unbalanced_transactions_count := 0,
        status := "Healthy" } :=
  claim_C7 emptyStore rfl

/-- C3 as frozen is false: the transfer endpoint never compares source and
destination, so a self-transfer commits a reachable store in which a
TRANSFER's two entries sit on the SAME account, contradicting the claimed
"on distinct accounts".  Concretely: create A, deposit 10, transfer 5 from
A to A. -/
theorem claim_C3_counterexample :
    Reachable exStore3 ∧
    transferTx "t2" ∈ exStore3.transactions ∧
    (transferTx "t2").type = "TRANSFER" ∧
    entriesOfTx exStore3 (transferTx "t2").id
      = [transferDebit "t2" "e2" exTransferReq,
         transferCredit "t2" "e3" exTransferReq] ∧
    (transferDebit "t2" "e2" exTransferReq).account_id
      = (transferCredit "t2" "e3" exTransferReq).account_id :=
  ⟨exStore3_reachable, by decide, rfl, by decide, rfl⟩

/-- C3 amended: in every reachable store every TRANSFER transaction has
exactly two entries — one DEBIT then one CREDIT of equal amount (on the
source and destination accounts, which need not be distinct) — and every
DEPOSIT or WITHDRAWAL transaction has exactly one entry. -/
theorem claim_C3 (s : Store) (h : Reachable s) : txShapeOK s :=
  txShapeOK_of_reachable h

/-- Witness for C3 at the reachable self-transfer store. -/
theorem claim_C3_witness : txShapeOK exStore3 :=
  claim_C3 exStore3 exStore3_reachable

/-- C4 as frozen is false: the deposit endpoint performs no account lookup
at all, so a deposit with positive amount to a nonexistent account id does
not fail with NotFound — it succeeds and persists the transaction and
entry anyway. -/
theorem claim_C4_counterexample :
    ¬ accountExists emptyStore "ghost" ∧
    deposit_funds emptyStore "t1" "e1" exGhostDeposit
      = Except.ok
          (⟨[], [depositTx "t1"], [depositEntry "t1" "e1" exGhostDeposit]⟩,
           "Deposit successful") ∧
    deposit_funds emptyStore "t1" "e1" exGhostDeposit
      ≠ Except.error ApiError.notFound := by
  have hok : deposit_funds emptyStore "t1" "e1" exGhostDeposit
      = Except.ok
          (⟨[], [depositTx "t1"], [depositEntry "t1" "e1" exGhostDeposit]⟩,
           "Deposit successful") := rfl
  refine ⟨by decide, hok, ?_⟩
  rw [hok]
  intro hcontra
  exact Except.noConfusion hcontra

/-- C4 amended: a Deposit call with amount > 0 always succeeds — whether or
not the account exists, since no existence check is made — persisting one
COMPLETED DEPOSIT transaction and one CREDIT entry; with amount > 0 on an
existing account it therefore always succeeds as claimed. -/
theorem claim_C4 (s : Store) (txId entryId : String) (req : DepositRequest)
    (h : 0 < req.amount) :
    deposit_funds s txId entryId req =
      Except.ok
        ({ s with transactions := s.transactions ++ [depositTx txId],
                  entries := s.entries ++ [depositEntry txId entryId req] },
         "Deposit successful") :=
  deposit_funds_ok s txId entryId req h

/-- Witness for C4: depositing 10 into existing account A succeeds. -/
theorem claim_C4_witness :
    deposit_funds exStore1 "t1" "e1" exDepositReq
      = Except.ok (exStore2, "Deposit successful") :=
  claim_C4 exStore1 "t1" "e1" exDepositReq (by decide)

/-- C6: any store holding a transaction with an odd number of ledger
entries (for instance any committed deposit or withdrawal, which has
exactly one) is flagged by the audit: at least one unbalanced transaction
and status Integrity Compromised. -/
theorem claim_C6 (s : Store) (tx : Transaction) (_htx : tx ∈ s.transactions)
    (hodd : entryCountFor s tx.id % 2 = 1) :
    1 ≤ (integrity_check s).unbalanced_transactions_count ∧
    (integrity_check s).status = "Integrity Compromised" := by
  have hne : entriesOfTx s tx.id ≠ [] := by
    intro h0
    rw [entryCountFor, h0] at hodd
    simp at hodd
  obtain ⟨e, he⟩ := List.exists_mem_of_ne_nil _ hne
  have he' := List.mem_filter.mp he
  have htid : e.transaction_id = tx.id := by simpa using he'.2
  have hmem : tx.id ∈ txIdsWithEntries s := by
    rw [txIdsWithEntries, List.mem_dedup]
    exact List.mem_map.mpr ⟨e, he'.1, htid⟩
  have hmem2 : tx.id ∈ unbalancedTxIds s := by
    rw [unbalancedTxIds, List.mem_filter]
    refine ⟨hmem, ?_⟩
    simp only [decide_eq_true_eq]
    omega
  have hlen : 0 < (unbalancedTxIds s).length :=
    List.length_pos.mpr (List.ne_nil_of_mem hmem2)
  constructor
  · exact hlen
  · show (if (unbalancedTxIds s).length = 0 then "Healthy"
      else "Integrity Compromised") = "Integrity Compromised"
    rw [if_neg (by omega)]

/-- Witness for C6 at the funded store, whose deposit t1 has one entry. -/
theorem claim_C6_witness :
    1 ≤ (integrity_check exStore2).unbalanced_transactions_count ∧
    (integrity_check exStore2).status = "Integrity Compromised" :=
  claim_C6 exStore2 (depositTx "t1") (by decide) (by decide)

/-- C8 as frozen is false: it demands exactly ⌊B/A⌋ successes for EVERY
batch size N, but a batch smaller than ⌊B/A⌋ can only produce N successes.
Concretely: balance 10, amount 5, one single withdrawal — ⌊10/5⌋ = 2 yet
only 1 succeeds. -/
theorem claim_C8_counterexample :
    balanceOf exStore2 exWithdrawReq.account_id = ((10 : Nat) : Int) ∧
    exWithdrawReq.amount = ((5 : Nat) : Int) ∧
    (10 : Nat) / 5 = 2 ∧
    (runWithdrawals exWithdrawReq exStore2 1).ok_count = 1 ∧
    (runWithdrawals exWithdrawReq exStore2 1).ok_count ≠ 2 := by
  decide

/-- C8 amended: for starting balance B and N withdrawals of the same fixed
amount A > 0 against one existing account — executed in the serial order
the per-account row lock imposes — exactly min(N, ⌊B/A⌋) succeed, the rest
all fail with InsufficientFunds (no other outcome occurs), and the final
balance equals B − min(N, ⌊B/A⌋)·A, which is never negative. -/
theorem claim_C8 (req : WithdrawalRequest) (a N : Nat) (s : Store) (B : Nat)
    (ha : 0 < a) (hA : req.amount = (a : Int))
    (hacc : accountExists s req.account_id)
    (hB : balanceOf s req.account_id = (B : Int)) :
    (runWithdrawals req s N).ok_count = min N (B / a) ∧
    (runWithdrawals req s N).insufficient_count = N - min N (B / a) ∧
    (runWithdrawals req s N).other_count = 0 ∧
    balanceOf (runWithdrawals req s N).store req.account_id
      = ((B - min N (B / a) * a : Nat) : Int) ∧
    0 ≤ balanceOf (runWithdrawals req s N).store req.account_id := by
  obtain ⟨h1, h2, h3, h4⟩ := runWithdrawals_spec req a ha hA N s B hacc hB
  refine ⟨h1, h2, h3, h4, ?_⟩
  rw [h4]
  exact Int.natCast_nonneg _

/-- Witness for C8: three withdrawals of 5 against balance 10 — two
succeed, one is rejected, final balance 0. -/
theorem claim_C8_witness :
    (runWithdrawals exWithdrawReq exStore2 3).ok_count = min 3 (10 / 5) ∧
    (runWithdrawals exWithdrawReq exStore2 3).insufficient_count
      = 3 - min 3 (10 / 5) ∧
    (runWithdrawals exWithdrawReq exStore2 3).other_count = 0 ∧
    balanceOf (runWithdrawals exWithdrawReq exStore2 3).store
      exWithdrawReq.account_id = ((10 - min 3 (10 / 5) * 5 : Nat) : Int) ∧
    0 ≤ balanceOf (runWithdrawals exWithdrawReq exStore2 3).store
      exWithdrawReq.account_id :=
  claim_C8 exWithdrawReq 5 3 exStore2 10 (by decide) (by decide) (by decide)
    (by decide)

/-- C9: a transfer whose source equals its destination, with positive
amount not exceeding that account's balance, succeeds: it persists one
TRANSFER transaction with a DEBIT and a CREDIT entry of the same amount,
both on that single account, and the account's balance is unchanged. -/
theorem claim_C9 (s : Store) (txId debitId creditId : String)
    (req : TransferRequest)
    (hself : req.source_account_id = req.destination_account_id)
    (hpos : 0 < req.amount)
    (hacc : accountExists s req.source_account_id)
    (hbal : req.amount ≤ balanceOf s req.source_account_id) :
    execute_transfer s txId debitId creditId req
      = Except.ok (afterTransfer s txId debitId creditId req, txId) ∧
    (afterTransfer s txId debitId creditId req).transactions
      = s.transactions ++ [transferTx txId] ∧
    (transferTx txId).type = "TRANSFER" ∧
    (afterTransfer s txId debitId creditId req).entries
      = s.entries ++ [transferDebit txId debitId req,
                      transferCredit txId creditId req] ∧
    (transferDebit txId debitId req).entry_type = EntryType.DEBIT ∧
    (transferCredit txId creditId req).entry_type = EntryType.CREDIT ∧
    (transferDebit txId debitId req).amount = req.amount ∧
    (transferCredit txId creditId req).amount = req.amount ∧
    (transferDebit txId debitId req).account_id = req.source_account_id ∧
    (transferCredit txId creditId req).account_id = req.source_account_id ∧
    balanceOf (afterTransfer s txId debitId creditId req) req.source_account_id
      = balanceOf s req.source_account_id := by
  refine ⟨execute_transfer_ok s txId debitId creditId req hpos hacc hbal,
    rfl, rfl, rfl, rfl, rfl, rfl, rfl, rfl, hself.symm, ?_⟩
  have hsplit : balanceOf (afterTransfer s txId debitId creditId req)
      req.source_account_id
      = balanceOf s req.source_account_id
        + (entrySigned (transferDebit txId debitId req)
           + (entrySigned (transferCredit txId creditId req) + 0)) := by
    rw [balanceOf_eq_sum, balanceOf_eq_sum]
    simp only [afterTransfer]
    rw [signed_sum_append]
    simp [transferDebit, transferCredit, hself]
  rw [hsplit]
  simp only [entrySigned, transferDebit, transferCredit]
  omega

/-- Witness for C9: the self-transfer of 5 on account A with balance 10. -/
theorem claim_C9_witness :
    execute_transfer exStore2 "t2" "e2" "e3" exTransferReq
      = Except.ok (exStore3, "t2") ∧
    exStore3.transactions = exStore2.transactions ++ [transferTx "t2"] ∧
    (transferTx "t2").type = "TRANSFER" ∧
    exStore3.entries = exStore2.entries ++
      [transferDebit "t2" "e2" exTransferReq,
       transferCredit "t2" "e3" exTransferReq] ∧
    (transferDebit "t2" "e2" exTransferReq).entry_type = EntryType.DEBIT ∧
    (transferCredit "t2" "e3" exTransferReq).entry_type = EntryType.CREDIT ∧
    (transferDebit "t2" "e2" exTransferReq).amount = exTransferReq.amount ∧
    (transferCredit "t2" "e3" exTransferReq).amount = exTransferReq.amount ∧
    (transferDebit "t2" "e2" exTransferReq).account_id = "A" ∧
    (transferCredit "t2" "e3" exTransferReq).account_id = "A" ∧
    balanceOf exStore3 "A" = balanceOf exStore2 "A" :=
  claim_C9 exStore2 "t2" "e2" "e3" exTransferReq rfl (by decide) (by decide)
    (by decide)

/-- C10: in every reachable store every persisted Transaction row has
status COMPLETED (the model default PENDING is never observable), and no
step ever rewrites an existing transaction row — each operation only
appends, leaving prior rows verbatim. -/
theorem claim_C10 :
    (∀ s : Store, Reachable s → allCompleted s) ∧
    (∀ s s' : Store, Step s s' →
      ∃ ts, s'.transactions = s.transactions ++ ts) :=
  ⟨fun _ h => allCompleted_of_reachable h,
   fun _ _ h => step_transactions_extend h⟩

/-- Witness for C10 at the reachable self-transfer store and its last step. -/
theorem claim_C10_witness :
    allCompleted exStore3 ∧
    ∃ ts, exStore3.transactions = exStore2.transactions ++ ts :=
  ⟨claim_C10.1 exStore3 exStore3_reachable,
   claim_C10.2 exStore2 exStore3 step_ex3⟩
